import Mathlib

/-!
Verification of the predixrun/predix-agent conversation core.

Shallow embedding of:
* `app/models/chat.py` — the `MessageType` enumeration (six members);
* `app/agent.py` — `extract_tool_data` (response classifier) and
  `process_message` (orchestrator entry point);
* `app/services/memory_service.py` — the file/in-memory conversation store
  (`save_message`, `save_tool_message`, `get_memory_messages`,
  `get_raw_messages`);
* `app/services/sports_service.py` — `get_fixtures` post-filtering.

Python values are modelled by the `PyVal` type; Python exceptions by `PyErr`
threaded through `Except`; the mutable module-level store `_memory_store`
plus the JSON files under `data/memory/` by an explicit `MemState` record;
`datetime.now()` by an explicit clock argument.  External collaborators (the
LLM agent, the sports HTTP API, the filesystem's success) are oracle
parameters.
-/

namespace Predix

/-- A Python value, as used by the conversation core: `None`, strings,
integers, booleans, lists and string-keyed dicts (insertion-ordered
association lists).  A `ToolMessage.content` that arrives as a JSON string
is represented by its parsed value; a string that does not parse as JSON is
represented by `pystr` (this absorbs the `json.loads`-with-fallback step of
`agent.py` lines 176-182 into the representation). -/
inductive PyVal where
  | pynone
  | pystr (s : String)
  | pyint (n : Int)
  | pybool (b : Bool)
  | pylist (xs : List PyVal)
  | pydict (fields : List (String × PyVal))

/-- Python truthiness (`bool(v)`): `None`, `""`, `0`, `False`, `[]` and
`{}` are falsy, everything else truthy. -/
def PyVal.truthy : PyVal → Bool
  | .pynone => false
  | .pystr s => !s.isEmpty
  | .pyint n => n != 0
  | .pybool b => b
  | .pylist xs => !xs.isEmpty
  | .pydict fs => !fs.isEmpty

/-- Serialisation of a `PyVal`, modelling `json.dumps` in `agent.py` line
186 (string escaping is not modelled; no claim depends on the exact
rendering, only on the value being stored as some string). -/
def PyVal.dumps : PyVal → String
  | .pynone => "null"
  | .pystr s => "\"" ++ s ++ "\""
  | .pyint n => toString n
  | .pybool b => if b then "true" else "false"
  | .pylist xs =>
      "[" ++ String.intercalate ", " (xs.attach.map (fun x => PyVal.dumps x.1)) ++ "]"
  | .pydict fs =>
      "\x7b" ++ String.intercalate ", "
        (fs.attach.map (fun f => "\"" ++ f.1.1 ++ "\": " ++ PyVal.dumps f.1.2)) ++ "\x7d"
termination_by v => sizeOf v
decreasing_by
  · have := List.sizeOf_lt_of_mem x.2
    simp only [PyVal.pylist.sizeOf_spec]
    omega
  · have h1 := List.sizeOf_lt_of_mem f.2
    have h2 : sizeOf f.1.2 < sizeOf f.1 := by
      obtain ⟨a, b⟩ := f.1
      simp only [Prod.mk.sizeOf_spec]
      omega
    simp only [PyVal.pydict.sizeOf_spec]
    omega

/-- Python `str(v)` as used in `agent.py` line 306.  Faithful for strings
(`str(s) = s`); for structured values an approximate rendering (no claim
depends on it). -/
def PyVal.pyStrOf : PyVal → String
  | .pystr s => s
  | v => v.dumps

/-- A Python exception. -/
inductive PyErr where
  | attributeError (name : String)
  | keyError (key : String)
  | typeError (msg : String)
  | importError (name : String)
  | other (msg : String)
deriving DecidableEq, Repr

/-- Association-list lookup (Python `d[k]` when the key is present /
`k in d`). -/
def lookupA {α : Type} : List (String × α) → String → Option α
  | [], _ => none
  | (k', v) :: rest, k => if k' == k then some v else lookupA rest k

/-- Association-list update (Python `d[k] = v`): replaces the binding if
present, otherwise appends it. -/
def setA {α : Type} : List (String × α) → String → α → List (String × α)
  | [], k, v => [(k, v)]
  | (k', v') :: rest, k, v =>
      if k' == k then (k, v) :: rest else (k', v') :: setA rest k v

/-- `app/models/chat.py` lines 10-17: the `MessageType` enumeration as
declared in the source.  It has exactly these six members: `TEXT`,
`SPORTS_SEARCH`, `MARKET_OPTIONS`, `MARKET_FINALIZED`, `ERROR`,
`TOKEN_SWAP`. -/
inductive MessageType where
  | TEXT
  | SPORTS_SEARCH
  | MARKET_OPTIONS
  | MARKET_FINALIZED
  | ERROR
  | TOKEN_SWAP
deriving DecidableEq, Repr

/-- Python attribute access `MessageType.<name>`: yields the member when it
is declared in `app/models/chat.py`, and raises `AttributeError` otherwise
(Python `enum` semantics).  Every occurrence of `MessageType.X` in
`app/agent.py` is embedded as `MessageType.attr "X"`. -/
def MessageType.attr : String → Except PyErr MessageType
  | "TEXT" => .ok .TEXT
  | "SPORTS_SEARCH" => .ok .SPORTS_SEARCH
  | "MARKET_OPTIONS" => .ok .MARKET_OPTIONS
  | "MARKET_FINALIZED" => .ok .MARKET_FINALIZED
  | "ERROR" => .ok .ERROR
  | "TOKEN_SWAP" => .ok .TOKEN_SWAP
  | n => .error (.attributeError n)

/-! ## The conversation store (`app/services/memory_service.py`)

`_memory_store` (module-level dict, line 8) and the JSON files under
`data/memory/` are modelled by the two association lists of `MemState`.
File writes are modelled as succeeding (the source catches and logs file
errors without re-raising, and the in-memory append happens first either
way); a file maps a conversation id to its stored `"messages"` list.
`datetime.now().isoformat()` is an explicit `ts : Nat` argument. -/

/-- A stored message record: a Python dict (ordered string-keyed). -/
abbrev Rec := List (String × PyVal)

/-- The store state: the in-memory cache `_memory_store` and the backing
files (conversation id ↦ persisted message list). -/
structure MemState where
  memory : List (String × List Rec)
  files : List (String × List Rec)

/-- The state at process start: empty cache, no files on disk. -/
def emptyMem : MemState := ⟨[], []⟩

/-- The record built by `save_message` lines 34-39. -/
def textRecord (role : String) (content : PyVal) (ts : Nat) : Rec :=
  [("type", .pystr "text"), ("role", .pystr role), ("content", content),
   ("timestamp", .pystr (toString ts))]

/-- `save_message` lines 21-57: ensure the id is present, append one text
record, then persist the whole list to the file. -/
def save_message (st : MemState) (cid role : String) (content : PyVal)
    (ts : Nat) : MemState :=
  let cur := (lookupA st.memory cid).getD []
  let msgs := cur ++ [textRecord role content ts]
  { memory := setA st.memory cid msgs, files := setA st.files cid msgs }

/-- The record built by `save_tool_message` lines 76-87: the `artifact` key
is added only when `artifact` is truthy (`if artifact:` line 86). -/
def toolRecord (tool_call_id : PyVal) (content status : String)
    (artifact : PyVal) (ts : Nat) : Rec :=
  [("type", .pystr "tool"), ("role", .pystr "tool"),
   ("tool_call_id", tool_call_id), ("content", .pystr content),
   ("status", .pystr status), ("timestamp", .pystr (toString ts))]
  ++ (if artifact.truthy then [("artifact", artifact)] else [])

/-- `save_tool_message` lines 59-105: ensure the id is present, append one
tool record, then persist the whole list to the file. -/
def save_tool_message (st : MemState) (cid : String) (tool_call_id : PyVal)
    (content status : String) (artifact : PyVal) (ts : Nat) : MemState :=
  let cur := (lookupA st.memory cid).getD []
  let msgs := cur ++ [toolRecord tool_call_id content status artifact ts]
  { memory := setA st.memory cid msgs, files := setA st.files cid msgs }

/-- `msg.get("type") == "tool"`: a record is tool-tagged iff its `type`
value is the string `"tool"`. -/
def isToolRec (r : Rec) : Bool :=
  match lookupA r "type" with
  | some (.pystr s) => s == "tool"
  | _ => false

/-- Python `msg[k]`: `KeyError` when the key is absent. -/
def getItem (r : Rec) (k : String) : Except PyErr PyVal :=
  match lookupA r k with
  | some v => .ok v
  | none => .error (.keyError k)

/-- The comprehension of `get_memory_messages` lines 119-121 / 134-136:
keep non-tool records and project each to its `role` and `content` values
(`msg["role"]` / `msg["content"]` raise `KeyError` when absent). -/
def projectText : List Rec → Except PyErr (List (PyVal × PyVal))
  | [] => .ok []
  | r :: rest =>
      if isToolRec r then projectText rest
      else do
        let role ← getItem r "role"
        let content ← getItem r "content"
        let tail ← projectText rest
        .ok ((role, content) :: tail)

/-- `get_memory_messages` lines 107-143.  Memory hit: project in place (an
exception here would propagate — there is no `try` on that branch).  Memory
miss with a file: load the file into the cache and project, any exception
being caught and replaced by a fresh empty conversation (lines 138-143).
Memory miss and no file: fresh empty conversation. -/
def get_memory_messages (st : MemState) (cid : String) :
    MemState × Except PyErr (List (PyVal × PyVal)) :=
  match lookupA st.memory cid with
  | some msgs => (st, projectText msgs)
  | none =>
      match lookupA st.files cid with
      | some msgs =>
          match projectText msgs with
          | .ok out => ({ st with memory := setA st.memory cid msgs }, .ok out)
          | .error _ => ({ st with memory := setA st.memory cid [] }, .ok [])
      | none => ({ st with memory := setA st.memory cid [] }, .ok [])

/-- `get_raw_messages` lines 229-256: the untouched record list from the
cache, else from the file (caching it), else a fresh empty list. -/
def get_raw_messages (st : MemState) (cid : String) : MemState × List Rec :=
  match lookupA st.memory cid with
  | some msgs => (st, msgs)
  | none =>
      match lookupA st.files cid with
      | some msgs => ({ st with memory := setA st.memory cid msgs }, msgs)
      | none => ({ st with memory := setA st.memory cid [] }, [])

/-! ## The response classifier (`app/agent.py`, `extract_tool_data`) -/

/-- A LangChain `ToolMessage` as read by `extract_tool_data`:
`name`/`tool_call_id` via `getattr(msg, _, None)` (`none` models the
attribute being absent), `content` the parsed-or-raw payload, `status` via
`getattr(msg, "status", "success")`. -/
structure ToolMsg where
  name : Option String
  tool_call_id : Option String
  content : PyVal
  status : String

/-- A message in an agent result state: only `tool` passes the
`isinstance(msg, ToolMessage)` check. -/
inductive LCMessage where
  | human (content : PyVal)
  | ai (content : PyVal)
  | tool (t : ToolMsg)

/-- The content attribute, present on every message object. -/
def LCMessage.content : LCMessage → PyVal
  | .human c => c
  | .ai c => c
  | .tool t => t.content

/-- The agent result state dict: `messages = none` models the `"messages"`
key being absent; `configurable` models
`result_state.get("configurable", {})` (in practice absent from agent
results, making the thread id `"unknown"`). -/
structure ResultState where
  messages : Option (List LCMessage)
  configurable : List (String × String)

/-- `result_state.get("configurable", {}).get("thread_id", "unknown")`
(`agent.py` line 193). -/
def ResultState.threadId (rs : ResultState) : String :=
  (lookupA rs.configurable "thread_id").getD "unknown"

/-- `if not tool_name: continue` (line 166): Python truthiness of the
`name` attribute — both a missing/`None` name and an empty-string name are
skipped. -/
def nameTruthy : Option String → Bool
  | none => false
  | some s => !s.isEmpty

/-- The scan of lines 161-167 applied to the already-reversed message list:
the first `ToolMessage` whose `name` is truthy. -/
def findToolMsg : List LCMessage → Option ToolMsg
  | [] => none
  | .tool t :: rest => if nameTruthy t.name then some t else findToolMsg rest
  | _ :: rest => findToolMsg rest

/-- Python `k in s` for strings: substring test. -/
def pyStrContains (s k : String) : Bool :=
  if k.isEmpty then true else (s.splitOn k).length != 1

/-- Python `k in v` for a string key `k`: key membership for dicts,
substring for strings, element membership for lists, `TypeError`
otherwise. -/
def pyContains (v : PyVal) (k : String) : Except PyErr Bool :=
  match v with
  | .pydict fs => .ok (lookupA fs k).isSome
  | .pystr s => .ok (pyStrContains s k)
  | .pylist xs =>
      .ok (xs.any (fun e => match e with | .pystr s => s == k | _ => false))
  | _ => .error (.typeError "argument of type is not iterable")

/-- Python `v[k]` for a string key `k`: dict lookup (`KeyError` when
absent), `TypeError` for every non-dict. -/
def pySubscript (v : PyVal) (k : String) : Except PyErr PyVal :=
  match v with
  | .pydict fs =>
      match lookupA fs k with
      | some x => .ok x
      | none => .error (.keyError k)
  | _ => .error (.typeError "indices must be integers")

/-- Python `v.get(k, d)`: defined for dicts only (`AttributeError` on other
values). -/
def pyGetMethod (v : PyVal) (k : String) (d : PyVal) : Except PyErr PyVal :=
  match v with
  | .pydict fs => .ok ((lookupA fs k).getD d)
  | _ => .error (.attributeError "get")

/-- The sports-payload selection of `extract_tool_data` lines 216-222, with
Python's short-circuit evaluation order. -/
def sportsData (cd : PyVal) : Except PyErr PyVal := do
  let b1 ← pyContains cd "sports_data"
  if b1 then pySubscript cd "sports_data"
  else
    let b2 ← pyContains cd "fixtures"
    if b2 then pure cd
    else
      let b3 ← pyContains cd "teams"
      if b3 then pure cd
      else
        let b4 ← pyContains cd "leagues"
        if b4 then pure cd
        else do
          let m ← pyGetMethod cd "message" (.pystr "Sports data retrieved")
          pure (.pydict [("message", m)])

/-- The branch table of `extract_tool_data` lines 200-223, mapping the
found tool's name and parsed content to the `(message_type, data)` pair.
Each `MessageType.X` assignment in the source is a Python enum attribute
access, hence `MessageType.attr "X"`.  A name matching no branch leaves the
initialised `(TEXT, None)` unchanged (the `break` at line 226 fires for any
named tool message). -/
def classifyByName (name : String) (cd : PyVal) :
    Except PyErr (MessageType × Option PyVal) :=
  if name == "dp_asking_options" then
    (MessageType.attr "MARKET_OPTIONS").map (fun t => (t, some cd))
  else if name == "dp_market_finalized" then
    (MessageType.attr "MARKET_FINALIZED").map (fun t => (t, some cd))
  else if name == "dp_token_bridge_finalized" then
    (MessageType.attr "TOKEN_BRIDGE").map (fun t => (t, some cd))
  else if name == "league_search" || name == "team_search"
      || name == "fixture_search" then
    match MessageType.attr "SPORTS_SEARCH" with
    | .error e => .error e
    | .ok t => (sportsData cd).map (fun d => (t, some d))
  else
    .ok (.TEXT, none)

/-- `getattr(msg, "tool_call_id", None)` as a stored Python value. -/
def optStrToPy : Option String → PyVal
  | none => .pynone
  | some s => .pystr s

/-- `extract_tool_data` (`app/agent.py` lines 141-228): scan the result
messages from the end for the first named `ToolMessage`, persist it via
`save_tool_message` (under the thread id read from the result state, with
the serialised content and the parsed content as artifact), then classify
by tool name.  The returned pair is `(TEXT, None)` when no named tool
message exists or the `messages` key is absent. -/
def extract_tool_data (st : MemState) (ts : Nat) (rs : ResultState) :
    MemState × Except PyErr (MessageType × Option PyVal) :=
  match rs.messages with
  | none => (st, .ok (.TEXT, none))
  | some msgs =>
      match findToolMsg msgs.reverse with
      | none => (st, .ok (.TEXT, none))
      | some tm =>
          let content_data := tm.content
          let content_string := content_data.dumps
          let st' := save_tool_message st rs.threadId
            (optStrToPy tm.tool_call_id) content_string "success"
            content_data ts
          (st', classifyByName (tm.name.getD "") content_data)

/-! ## The orchestrator (`app/agent.py`, `process_message`) -/

/-- The response dict returned by `process_message`. -/
structure Envelope where
  conversation_id : String
  message : PyVal
  message_type : MessageType
  data : Option PyVal

/-- The fallback assistant message of `process_message` line 327. -/
def fallbackText : String :=
  "Sorry, I encountered an error processing your request. Please try again."

/-- The default final content of `process_message` line 276. -/
def noResponseText : String := "I couldn't process your request."

/-- The `except` branch of `process_message` lines 323-335: append the
fallback assistant message and build the `ERROR` envelope. -/
def errorResponse (st : MemState) (cid : String) (ts : Nat) :
    MemState × Envelope :=
  (save_message st cid "assistant" (.pystr fallbackText) ts,
   ⟨cid, .pystr fallbackText, .ERROR, none⟩)

/-- One step of the `ToolMessage` persistence loop of `process_message`
lines 282-309: every tool message in the result is saved with its
`tool_call_id` (or a generated `call_<timestamp>` id when the attribute is
absent), `str(content)`, its `status`, and the parsed content as
artifact. -/
def saveToolFromLoop (cid : String) (ts : Nat) (st : MemState)
    (m : LCMessage) : MemState :=
  match m with
  | .tool t =>
      save_tool_message st cid
        (match t.tool_call_id with
         | some s => .pystr s
         | none => .pystr ("call_" ++ toString ts))
        t.content.pyStrOf t.status t.content ts
  | _ => st

/-- `final_content` (`process_message` lines 275-276): the content of the
last result message, or the default apology when the result has no
messages. -/
def finalContent (rs : ResultState) : PyVal :=
  match rs.messages with
  | some msgs =>
      match msgs.getLast? with
      | some m => m.content
      | none => .pystr noResponseText
  | none => .pystr noResponseText

/-- The remainder of `process_message`'s `try` block after a successful
agent invocation (lines 272-321): save the assistant reply, save every tool
message of the result, classify via `extract_tool_data`; a classification
exception is caught by the surrounding `except` (lines 323-335), yielding
the fallback. -/
def tryBody (st2 : MemState) (ts : Nat) (conversation_id : String)
    (rs : ResultState) : MemState × Envelope :=
  let st3 := save_message st2 conversation_id "assistant" (finalContent rs) ts
  let st4 := (rs.messages.getD []).foldl
    (saveToolFromLoop conversation_id ts) st3
  let ex := extract_tool_data st4 ts rs
  match ex.2 with
  | .error _ => errorResponse ex.1 conversation_id ts
  | .ok (mt, data) => (ex.1, ⟨conversation_id, finalContent rs, mt, data⟩)

/-- `create_agent` (`app/agent.py` lines 94-139).  After constructing the
LLM client it dynamically loads the six tools (lines 107-109):
`dp_market_finalized` and `dp_asking_options` via the `app.tools` package —
whose `app/tools/__init__.py` (lines 22-23) in turn loads
`create_market_dp_tool`, `dp_asking_options`, `set_bet_amount_dp_tool` from
`app.tools.market_tools` and `fixture_search_tool`, `league_search_tool`,
`team_search_tool` from `app.tools.sports_tools`.  None of those names is
defined in this source (`market_tools.py` defines only `create_market_tool`
and `process_selection_tool`; `sports_tools.py` only `sports_info_tool`),
so the load raises `ImportError` on every call, before any tool or LLM
work.  A failed module load is not cached, so every call re-raises. -/
def create_agent : Except PyErr Unit := .error (.importError "app.tools")

/-- `process_message` (`app/agent.py` lines 231-335).  The agent invocation
`agent.ainvoke` is the oracle argument `agentResult` (`.error` models the
reasoning step raising).  The returned pair carries the module-global store
alongside the outcome: the store survives a raised exception.  Execution
order, faithful to the source: `create_agent()` at line 245 — which in this
source always raises `ImportError` (see `create_agent`) — then loading the
prior messages and saving the user message (lines 248-255), all before the
`try` block, so an exception in any of them propagates (`.error` outcome);
inside the `try`, an agent exception yields the fallback `ERROR` envelope
and a successful agent result is processed by `tryBody`. -/
def process_message (st : MemState) (ts : Nat)
    (message conversation_id : String)
    (agentResult : Except PyErr ResultState) :
    MemState × Except PyErr Envelope :=
  match create_agent with
  | .error e => (st, .error e)
  | .ok _ =>
      let g := get_memory_messages st conversation_id
      match g.2 with
      | .error e => (g.1, .error e)
      | .ok _msgs =>
          let st2 := save_message g.1 conversation_id "user" (.pystr message) ts
          match agentResult with
          | .error _ =>
              ((errorResponse st2 conversation_id ts).1,
               .ok (errorResponse st2 conversation_id ts).2)
          | .ok rs =>
              ((tryBody st2 ts conversation_id rs).1,
               .ok (tryBody st2 ts conversation_id rs).2)

/-! ## Fixture retrieval (`app/services/sports_service.py`, `get_fixtures`)

Only the post-fetch filtering (lines 120-156) is embedded; the request
parameter construction (lines 74-118) only shapes the HTTP request, which
is the oracle `api` here.  `parser.parse(fixture["fixture"]["date"])` is
modelled by the fixture's `kickoff` timestamp and `datetime.now(pytz.UTC)`
by the `now` argument. -/

/-- A fixture record, reduced to the fields the filter reads. -/
structure Fixture where
  fid : Nat
  kickoff : Int
deriving DecidableEq, Repr

/-- Outcome of the upstream `GET /fixtures` call. -/
inductive ApiResult where
  | ok (fixtures : List Fixture)
  | httpError (code : Nat)
  | exn (msg : String)

/-- Python truthiness of the `fixture_id` argument (`if fixture_id:` /
`if not fixture_id`): `None` and `0` are both falsy. -/
def pyTruthyOptInt : Option Int → Bool
  | none => false
  | some n => n != 0

/-- `get_fixtures` lines 120-156: non-200 responses and transport errors
yield `[]`; on success, when `fixture_id` is falsy and the list non-empty,
keep the strictly-future fixtures (`upcoming=True`) or the
at-or-before-now fixtures (`upcoming=False`); otherwise return the list
unfiltered. -/
def get_fixtures (fixture_id : Option Int) (upcoming : Bool) (now : Int)
    (api : ApiResult) : List Fixture :=
  match api with
  | .httpError _ => []
  | .exn _ => []
  | .ok fixtures =>
      if !(pyTruthyOptInt fixture_id) && !fixtures.isEmpty then
        if upcoming then fixtures.filter (fun f => now < f.kickoff)
        else fixtures.filter (fun f => f.kickoff ≤ now)
      else fixtures

/-! ## Auxiliary notions for the statements -/

/-- One append operation against the store: a `save_message` call or a
`save_tool_message` call, with all its arguments. -/
inductive MemOp where
  | text (cid role : String) (content : PyVal) (ts : Nat)
  | tool (cid : String) (tool_call_id : PyVal) (content status : String)
      (artifact : PyVal) (ts : Nat)

/-- The conversation id an operation targets. -/
def MemOp.cid : MemOp → String
  | .text c _ _ _ => c
  | .tool c _ _ _ _ _ => c

/-- The record the operation appends. -/
def MemOp.record : MemOp → Rec
  | .text _ role content ts => textRecord role content ts
  | .tool _ tid content status artifact ts => toolRecord tid content status artifact ts

/-- Execute one append operation. -/
def applyOp (st : MemState) : MemOp → MemState
  | .text c role content ts => save_message st c role content ts
  | .tool c tid content status artifact ts =>
      save_tool_message st c tid content status artifact ts

/-- Execute a sequence of append operations in call order. -/
def applyOps (st : MemState) (ops : List MemOp) : MemState :=
  ops.foldl applyOp st

/-- What a conversation's cached list becomes after appends `new`:
untouched ids stay absent, a touched id holds its old list extended with
the new records in order. -/
def memAfter (cur : Option (List Rec)) (new : List Rec) : Option (List Rec) :=
  match cur with
  | some l => some (l ++ new)
  | none => match new with
    | [] => none
    | _ => some new

/-! ## Supporting lemmas about the store -/

theorem lookupA_setA_self {α : Type} (m : List (String × α)) (k : String) (v : α) :
    lookupA (setA m k v) k = some v := by
  induction m with
  | nil => simp [lookupA, setA]
  | cons p rest ih =>
      obtain ⟨k', v'⟩ := p
      by_cases h : k' = k
      · simp [lookupA, setA, h]
      · simp [lookupA, setA, h, ih]

theorem lookupA_setA_other {α : Type} (m : List (String × α)) (k k' : String)
    (v : α) (h : k' ≠ k) : lookupA (setA m k v) k' = lookupA m k' := by
  induction m with
  | nil => simp [lookupA, setA, Ne.symm h]
  | cons p rest ih =>
      obtain ⟨k0, v0⟩ := p
      by_cases h0 : k0 = k
      · subst h0
        simp [lookupA, setA, Ne.symm h]
      · by_cases h1 : k0 = k'
        · subst h1
          simp [lookupA, setA, h0]
        · simp [lookupA, setA, h0, h1, ih]

theorem save_message_memory_self (st : MemState) (cid role : String)
    (content : PyVal) (ts : Nat) :
    lookupA (save_message st cid role content ts).memory cid
      = some ((lookupA st.memory cid).getD [] ++ [textRecord role content ts]) := by
  simp [save_message, lookupA_setA_self]

theorem save_message_memory_other (st : MemState) (cid cid' role : String)
    (content : PyVal) (ts : Nat) (h : cid' ≠ cid) :
    lookupA (save_message st cid role content ts).memory cid'
      = lookupA st.memory cid' := by
  simp [save_message, lookupA_setA_other _ _ _ _ h]

theorem save_message_files_other (st : MemState) (cid cid' role : String)
    (content : PyVal) (ts : Nat) (h : cid' ≠ cid) :
    lookupA (save_message st cid role content ts).files cid'
      = lookupA st.files cid' := by
  simp [save_message, lookupA_setA_other _ _ _ _ h]

theorem save_tool_message_memory_self (st : MemState) (cid : String)
    (tid : PyVal) (content status : String) (artifact : PyVal) (ts : Nat) :
    lookupA (save_tool_message st cid tid content status artifact ts).memory cid
      = some ((lookupA st.memory cid).getD []
          ++ [toolRecord tid content status artifact ts]) := by
  simp [save_tool_message, lookupA_setA_self]

theorem save_tool_message_memory_other (st : MemState) (cid cid' : String)
    (tid : PyVal) (content status : String) (artifact : PyVal) (ts : Nat)
    (h : cid' ≠ cid) :
    lookupA (save_tool_message st cid tid content status artifact ts).memory cid'
      = lookupA st.memory cid' := by
  simp [save_tool_message, lookupA_setA_other _ _ _ _ h]

theorem save_tool_message_files_other (st : MemState) (cid cid' : String)
    (tid : PyVal) (content status : String) (artifact : PyVal) (ts : Nat)
    (h : cid' ≠ cid) :
    lookupA (save_tool_message st cid tid content status artifact ts).files cid'
      = lookupA st.files cid' := by
  simp [save_tool_message, lookupA_setA_other _ _ _ _ h]

theorem applyOp_memory (st : MemState) (op : MemOp) (cid : String) :
    lookupA (applyOp st op).memory cid =
      if op.cid = cid then
        some ((lookupA st.memory cid).getD [] ++ [op.record])
      else lookupA st.memory cid := by
  cases op with
  | text c role content ts =>
      by_cases h : c = cid
      · subst h
        simp [applyOp, MemOp.cid, MemOp.record, save_message_memory_self]
      · simp [applyOp, MemOp.cid, h,
          save_message_memory_other st c cid role content ts (Ne.symm h)]
  | tool c tid content status artifact ts =>
      by_cases h : c = cid
      · subst h
        simp [applyOp, MemOp.cid, MemOp.record, save_tool_message_memory_self]
      · simp [applyOp, MemOp.cid, h,
          save_tool_message_memory_other st c cid tid content status artifact ts
            (Ne.symm h)]

theorem applyOp_files_other (st : MemState) (op : MemOp) (cid : String)
    (h : op.cid ≠ cid) :
    lookupA (applyOp st op).files cid = lookupA st.files cid := by
  cases op with
  | text c role content ts =>
      exact save_message_files_other st c cid role content ts (Ne.symm h)
  | tool c tid content status artifact ts =>
      exact save_tool_message_files_other st c cid tid content status artifact ts
        (Ne.symm h)

theorem applyOps_memory (ops : List MemOp) (cid : String) (st : MemState) :
    lookupA (applyOps st ops).memory cid
      = memAfter (lookupA st.memory cid)
          ((ops.filter (fun o => o.cid == cid)).map MemOp.record) := by
  induction ops generalizing st with
  | nil =>
      cases h : lookupA st.memory cid <;> simp [applyOps, memAfter, h]
  | cons op rest ih =>
      have hstep : applyOps st (op :: rest) = applyOps (applyOp st op) rest := rfl
      by_cases hc : op.cid = cid
      · have hfc : (op :: rest).filter (fun o => o.cid == cid)
            = op :: rest.filter (fun o => o.cid == cid) := by
          simp [List.filter_cons, hc]
        rw [hstep, ih, applyOp_memory, if_pos hc, hfc]
        simp only [List.map_cons]
        cases hcur : lookupA st.memory cid <;> simp [memAfter, hcur]
      · have hfc : (op :: rest).filter (fun o => o.cid == cid)
            = rest.filter (fun o => o.cid == cid) := by
          simp [List.filter_cons, hc]
        rw [hstep, ih, applyOp_memory, if_neg hc, hfc]

theorem applyOps_files_untouched (ops : List MemOp) (cid : String) (st : MemState)
    (h : ops.filter (fun o => o.cid == cid) = []) :
    lookupA (applyOps st ops).files cid = lookupA st.files cid := by
  induction ops generalizing st with
  | nil => rfl
  | cons op rest ih =>
      rw [List.filter_cons] at h
      by_cases hc : op.cid = cid
      · simp [hc] at h
      · simp only [beq_iff_eq, hc] at h
        rw [if_neg (by simp)] at h
        have hstep : applyOps st (op :: rest) = applyOps (applyOp st op) rest := rfl
        rw [hstep, ih _ h, applyOp_files_other st op cid hc]

/-! ## The claims -/

/-- C6: loading the conversation state for a conversation id that has never
been written — absent from both the in-memory store and the backing file —
returns the empty message list and does not raise. -/
theorem get_memory_messages_fresh (st : MemState) (cid : String)
    (h1 : lookupA st.memory cid = none) (h2 : lookupA st.files cid = none) :
    (get_memory_messages st cid).2 = .ok [] := by
  simp [get_memory_messages, h1, h2]

/-- Witness for `get_memory_messages_fresh` at the pristine store and a
concrete conversation id. -/
theorem get_memory_messages_fresh_witness :
    lookupA emptyMem.memory "c1" = none ∧ lookupA emptyMem.files "c1" = none ∧
    (get_memory_messages emptyMem "c1").2 = .ok [] :=
  ⟨rfl, rfl, get_memory_messages_fresh emptyMem "c1" rfl rfl⟩

/-- C7: for every sequence of append operations (`save_message` /
`save_tool_message` calls) executed from the initial empty store, reading
the raw conversation via `get_raw_messages` yields exactly the records of
the operations targeting that conversation id, in call order: each append
adds one record at the end and nothing reorders or removes prior
records. -/
theorem raw_messages_are_append_sequence (ops : List MemOp) (cid : String) :
    (get_raw_messages (applyOps emptyMem ops) cid).2
      = (ops.filter (fun o => o.cid == cid)).map MemOp.record := by
  have hm := applyOps_memory ops cid emptyMem
  have hcur : lookupA emptyMem.memory cid = none := rfl
  rw [hcur] at hm
  cases hrec : (ops.filter (fun o => o.cid == cid)).map MemOp.record with
  | nil =>
      rw [hrec] at hm
      have hfilter : ops.filter (fun o => o.cid == cid) = [] := by
        cases hft : ops.filter (fun o => o.cid == cid) with
        | nil => rfl
        | cons a l => rw [hft] at hrec; simp at hrec
      have hf : lookupA (applyOps emptyMem ops).files cid = none := by
        rw [applyOps_files_untouched ops cid emptyMem hfilter]; rfl
      simp only [memAfter] at hm
      simp [get_raw_messages, hm, hf]
  | cons r l =>
      rw [hrec] at hm
      simp only [memAfter] at hm
      simp [get_raw_messages, hm]

/-- C8: classification is deterministic in its input.  The returned
`(message_type, data)` outcome of `extract_tool_data` depends only on the
given result state — not on the store it writes the tool record into, nor
on the clock, so two invocations on the same fixed turn result are
identical. -/
theorem extract_tool_data_pure (st1 st2 : MemState) (ts1 ts2 : Nat)
    (rs : ResultState) :
    (extract_tool_data st1 ts1 rs).2 = (extract_tool_data st2 ts2 rs).2 := by
  unfold extract_tool_data
  cases hm : rs.messages with
  | none => rfl
  | some msgs => cases hf : findToolMsg msgs.reverse <;> simp [hf]

/-- C3: when a turn's message list contains several tool invocation
records, the classifier's outcome is that of the last recorded (named) one
alone; earlier records affect neither the kind nor the payload.  (The scan
walks the reversed list and stops at the first named tool record.) -/
theorem classifier_last_record_wins (pre : List LCMessage) (t : ToolMsg)
    (st st' : MemState) (ts ts' : Nat) (cfg cfg' : List (String × String))
    (h : nameTruthy t.name = true) :
    (extract_tool_data st ts ⟨some (pre ++ [.tool t]), cfg⟩).2
      = (extract_tool_data st' ts' ⟨some [.tool t], cfg'⟩).2 := by
  unfold extract_tool_data
  simp only [List.reverse_append, List.reverse_cons, List.reverse_nil,
    List.nil_append, List.cons_append, findToolMsg, h, if_true]

/-- Witness for `classifier_last_record_wins`: two finalize-class records
in one turn (a `dp_market_finalized` followed by a `dp_asking_options`) —
the outcome equals that of the last record alone. -/
theorem classifier_last_record_wins_witness :
    nameTruthy (some "dp_asking_options") = true ∧
    (extract_tool_data emptyMem 0
        ⟨some [.tool ⟨some "dp_market_finalized", some "cA",
                      .pydict [("k", .pystr "v")], "success"⟩,
               .tool ⟨some "dp_asking_options", some "cB",
                      .pydict [("k2", .pystr "w")], "success"⟩], []⟩).2
      = (extract_tool_data emptyMem 1
          ⟨some [.tool ⟨some "dp_asking_options", some "cB",
                        .pydict [("k2", .pystr "w")], "success"⟩], []⟩).2 :=
  ⟨rfl,
   classifier_last_record_wins
     [.tool ⟨some "dp_market_finalized", some "cA",
             .pydict [("k", .pystr "v")], "success"⟩]
     ⟨some "dp_asking_options", some "cB", .pydict [("k2", .pystr "w")], "success"⟩
     emptyMem emptyMem 0 1 [] [] rfl⟩

/-- C1 (code bug): the `MessageType` enumeration of `app/models/chat.py`
declares six members only — `BETTING_AMOUNT_REQUEST` and `TOKEN_BRIDGE` are
missing — while `agent.py` line 211 accesses `MessageType.TOKEN_BRIDGE`.
Consequently a turn in which `dp_token_bridge_finalized` fired is never
classified as `TOKEN_BRIDGE`: the classifier raises `AttributeError`
instead. -/
theorem messageType_missing_members_bug :
    MessageType.attr "BETTING_AMOUNT_REQUEST"
        = .error (.attributeError "BETTING_AMOUNT_REQUEST") ∧
    MessageType.attr "TOKEN_BRIDGE" = .error (.attributeError "TOKEN_BRIDGE") ∧
    ∀ st ts cfg tid cd,
      (extract_tool_data st ts
          ⟨some [.tool ⟨some "dp_token_bridge_finalized", tid, cd, "success"⟩],
           cfg⟩).2
        = .error (.attributeError "TOKEN_BRIDGE") :=
  ⟨rfl, rfl, fun _ _ _ _ _ => rfl⟩

/-- C2 (code bug): the classification table of `extract_tool_data`.  No
tool fired → `(TEXT, None)`; `dp_asking_options` → `MARKET_OPTIONS` with
the tool content as payload; `dp_market_finalized` → `MARKET_FINALIZED`;
each search tool (`league_search`, `team_search`, `fixture_search`) →
`SPORTS_SEARCH` with the fixture/team/league payload; but
`dp_token_bridge_finalized` does NOT yield `TOKEN_BRIDGE` — it raises
`AttributeError` because the enumeration lacks that member. -/
theorem classifier_table_rows :
    (∀ st ts cfg, (extract_tool_data st ts ⟨some [], cfg⟩).2
        = .ok (.TEXT, none)) ∧
    (∀ st ts cfg c c', (extract_tool_data st ts
        ⟨some [.human c, .ai c'], cfg⟩).2 = .ok (.TEXT, none)) ∧
    (∀ st ts cfg tid cd, (extract_tool_data st ts
        ⟨some [.tool ⟨some "dp_asking_options", tid, cd, "success"⟩], cfg⟩).2
        = .ok (.MARKET_OPTIONS, some cd)) ∧
    (∀ st ts cfg tid cd, (extract_tool_data st ts
        ⟨some [.tool ⟨some "dp_market_finalized", tid, cd, "success"⟩], cfg⟩).2
        = .ok (.MARKET_FINALIZED, some cd)) ∧
    (∀ st ts cfg tid v, (extract_tool_data st ts
        ⟨some [.tool ⟨some "league_search", tid,
                      .pydict [("fixtures", v)], "success"⟩], cfg⟩).2
        = .ok (.SPORTS_SEARCH, some (.pydict [("fixtures", v)]))) ∧
    (∀ st ts cfg tid v, (extract_tool_data st ts
        ⟨some [.tool ⟨some "team_search", tid,
                      .pydict [("teams", v)], "success"⟩], cfg⟩).2
        = .ok (.SPORTS_SEARCH, some (.pydict [("teams", v)]))) ∧
    (∀ st ts cfg tid v, (extract_tool_data st ts
        ⟨some [.tool ⟨some "fixture_search", tid,
                      .pydict [("sports_data", v)], "success"⟩], cfg⟩).2
        = .ok (.SPORTS_SEARCH, some v)) ∧
    (∀ st ts cfg tid cd, (extract_tool_data st ts
        ⟨some [.tool ⟨some "dp_token_bridge_finalized", tid, cd, "success"⟩],
         cfg⟩).2
        = .error (.attributeError "TOKEN_BRIDGE")) :=
  ⟨fun _ _ _ => rfl, fun _ _ _ _ _ => rfl, fun _ _ _ _ _ => rfl,
   fun _ _ _ _ _ => rfl, fun _ _ _ _ _ => rfl, fun _ _ _ _ _ => rfl,
   fun _ _ _ _ _ => rfl, fun _ _ _ _ _ => rfl⟩

/-- C4 (code bug): the orchestrator entry point lets an exception propagate
on EVERY call: `create_agent()` at line 245 sits before the `try` block and
raises `ImportError` unconditionally in this source (its tool symbols are
defined nowhere), so the caller sees the exception and no `ERROR` envelope
is produced — even though the entry point's own `except` block (lines
323-335) implements exactly the claimed fallback behaviour for everything
after it. -/
theorem process_message_always_raises (st : MemState) (ts : Nat)
    (msg cid : String) (ar : Except PyErr ResultState) :
    (process_message st ts msg cid ar).2
      = .error (.importError "app.tools") := rfl

/-- C5 (code bug): because the unconditional `ImportError` from
`create_agent()` (line 245) fires before the user-turn save
(`save_message(conversation_id, "user", message)`, line 255), the user's
original message is NOT present in the persisted conversation turns after
the entry point returns: the store is left exactly as it was, and from the
pristine store the conversation stays empty. -/
theorem user_message_never_persisted (st : MemState) (ts : Nat)
    (msg cid : String) (ar : Except PyErr ResultState) :
    (process_message st ts msg cid ar).1 = st ∧
    textRecord "user" (.pystr msg) ts
      ∉ (lookupA (process_message emptyMem ts msg cid ar).1.memory cid).getD [] := by
  refine ⟨rfl, ?_⟩
  simp [process_message, create_agent, emptyMem, lookupA]

/-- C9 counterexample: a `save_tool_message` call with the default
`artifact=None` appends a record that has `tool_call_id` and `status` keys
but NO `artifact` key (the source adds it only under `if artifact:`). -/
theorem tool_record_artifact_missing :
    lookupA (save_tool_message emptyMem "c1" (.pystr "id1") "payload"
        "success" .pynone 0).memory "c1"
      = some [toolRecord (.pystr "id1") "payload" "success" .pynone 0] ∧
    lookupA (toolRecord (.pystr "id1") "payload" "success" .pynone 0)
      "artifact" = none ∧
    (lookupA (toolRecord (.pystr "id1") "payload" "success" .pynone 0)
      "tool_call_id").isSome = true ∧
    (lookupA (toolRecord (.pystr "id1") "payload" "success" .pynone 0)
      "status").isSome = true :=
  ⟨rfl, rfl, rfl, rfl⟩

/-- C9 amended: every `save_tool_message` call appends exactly one record
tagged `type="tool"` carrying `tool_call_id` and `status`; the `artifact`
key is present exactly when the supplied artifact value is truthy (here:
when it is truthy). -/
theorem tool_record_keys_when_truthy (st : MemState) (cid : String)
    (tid : PyVal) (content status : String) (art : PyVal) (ts : Nat)
    (h : art.truthy = true) :
    ((lookupA (save_tool_message st cid tid content status art ts).memory
        cid).getD []).getLast?
      = some (toolRecord tid content status art ts) ∧
    lookupA (toolRecord tid content status art ts) "type"
      = some (.pystr "tool") ∧
    lookupA (toolRecord tid content status art ts) "tool_call_id" = some tid ∧
    lookupA (toolRecord tid content status art ts) "status"
      = some (.pystr status) ∧
    lookupA (toolRecord tid content status art ts) "artifact" = some art := by
  refine ⟨?_, ?_, ?_, ?_, ?_⟩
  · rw [save_tool_message_memory_self]
    simp
  all_goals simp [toolRecord, lookupA, h]

/-- Witness for `tool_record_keys_when_truthy` with a truthy artifact. -/
theorem tool_record_keys_witness :
    PyVal.truthy (.pydict [("a", .pyint 1)]) = true ∧
    ((lookupA (save_tool_message emptyMem "c1" (.pystr "id1") "payload"
        "success" (.pydict [("a", .pyint 1)]) 0).memory "c1").getD []).getLast?
      = some (toolRecord (.pystr "id1") "payload" "success"
          (.pydict [("a", .pyint 1)]) 0) ∧
    lookupA (toolRecord (.pystr "id1") "payload" "success"
        (.pydict [("a", .pyint 1)]) 0) "artifact"
      = some (.pydict [("a", .pyint 1)]) :=
  ⟨rfl,
   (tool_record_keys_when_truthy emptyMem "c1" (.pystr "id1") "payload"
     "success" (.pydict [("a", .pyint 1)]) 0 rfl).1,
   (tool_record_keys_when_truthy emptyMem "c1" (.pystr "id1") "payload"
     "success" (.pydict [("a", .pyint 1)]) 0 rfl).2.2.2.2⟩

/-- C10 counterexample: `get_fixtures` called WITH a fixture id — the
(falsy) id `0` — still applies the kickoff-time filter, because the source
tests `if not fixture_id:` (Python truthiness), dropping the past fixture
instead of returning the list unfiltered. -/
theorem fixture_filter_applied_despite_zero_id :
    get_fixtures (some 0) true 100 (.ok [⟨1, 50⟩]) = [] ∧
    get_fixtures (some 0) true 100 (.ok [⟨1, 50⟩]) ≠ [⟨1, 50⟩] := by
  constructor
  · rfl
  · decide

/-- C10 amended: with a falsy `fixture_id` (absent or `0`) and a successful
upstream response, the returned list is EXACTLY the upstream list filtered
by kickoff time — `upcoming=True` keeps exactly the strictly-future
fixtures and `upcoming=False` exactly the at-or-before-now fixtures (in
particular every returned fixture satisfies the bound); with a truthy
(nonzero) `fixture_id` the list is returned with no time filter applied. -/
theorem get_fixtures_time_filter (fid : Option Int) (upc : Bool) (now : Int)
    (fixtures : List Fixture) :
    (pyTruthyOptInt fid = false →
      get_fixtures fid true now (.ok fixtures)
          = fixtures.filter (fun f => now < f.kickoff) ∧
      get_fixtures fid false now (.ok fixtures)
          = fixtures.filter (fun f => f.kickoff ≤ now)) ∧
    (pyTruthyOptInt fid = true →
      get_fixtures fid upc now (.ok fixtures) = fixtures) := by
  constructor
  · intro hf
    constructor
    · rcases fixtures with _ | ⟨a, l⟩
      · simp [get_fixtures]
      · simp [get_fixtures, hf]
    · rcases fixtures with _ | ⟨a, l⟩
      · simp [get_fixtures]
      · simp [get_fixtures, hf]
  · intro ht
    simp [get_fixtures, ht]

/-- Witness for `get_fixtures_time_filter`: without an id the returned list
equals the kickoff-filtered list (the past fixture dropped, the future one
kept); with the nonzero id `3` a past fixture is returned unfiltered. -/
theorem get_fixtures_time_filter_witness :
    pyTruthyOptInt none = false ∧ pyTruthyOptInt (some 3) = true ∧
    get_fixtures none true 5 (.ok [⟨1, 9⟩, ⟨2, 3⟩])
      = List.filter (fun f => 5 < f.kickoff) [⟨1, 9⟩, ⟨2, 3⟩] ∧
    List.filter (fun f => 5 < f.kickoff)
      ([⟨1, 9⟩, ⟨2, 3⟩] : List Fixture) = [⟨1, 9⟩] ∧
    get_fixtures (some 3) true 5 (.ok [⟨1, 2⟩]) = [⟨1, 2⟩] :=
  ⟨rfl, by decide,
   ((get_fixtures_time_filter none true 5 [⟨1, 9⟩, ⟨2, 3⟩]).1 rfl).1,
   by decide,
   (get_fixtures_time_filter (some 3) true 5 [⟨1, 2⟩]).2 (by decide)⟩

end Predix
